import Mathlib

/-!
Shallow embedding of the Moltbot Den trust-score engine
(`src/trust-engine.ts`) and verification of its specification.

JavaScript numbers are idealised as exact arithmetic: raw metrics,
timestamps and sub-scores are rationals, and the fractional-exponent
decay factor `Math.pow(0.95, months)` is the real power function.
`Math.round` (round half toward positive infinity) is `⌊x + 1/2⌋`.
-/

/-- JS `Math.round` on rationals: round half toward positive infinity. -/
def jsRound (x : ℚ) : ℤ := ⌊x + 1 / 2⌋

/-- JS `Math.round` on reals (used after the real-valued decay product). -/
noncomputable def jsRoundR (x : ℝ) : ℤ := ⌊x + 1 / 2⌋

/-- `VerificationTier` — closed enumeration, ordinal 0–4 (schema.ts). -/
inductive VerificationTier where
  | UNVERIFIED
  | BASIC
  | VERIFIED
  | AUDITED
  | ENTERPRISE
deriving DecidableEq

/-- `AgentPlatformData` — raw input metrics (trust-engine.ts). -/
structure AgentPlatformData where
  agentId : String
  agentName : String
  solanaWallet : String
  denMessages : ℚ
  dmsSent : ℚ
  promptResponses : ℚ
  verifiedSkills : ℚ
  totalSkills : ℚ
  endorsementsReceived : ℚ
  endorserAvgTrust : ℚ
  reviewCount : ℚ
  avgReviewScore : ℚ
  uptimePercent : ℚ
  responseQuality : ℚ
  walletAge : ℚ
  txCount : ℚ
  securityAuditPassed : Bool
  auditScore : ℚ
  accountAgeDays : ℚ
  verificationTier : VerificationTier
  lastActivityAt : ℚ
deriving DecidableEq

/-- `TrustAttestation` — immutable output record (schema.ts). -/
structure TrustAttestation where
  agentId : String
  agentName : String
  solanaWallet : String
  trustScore : ℚ
  platformActivity : ℚ
  skillVerifications : ℚ
  endorsements : ℚ
  reviews : ℚ
  deploymentMetrics : ℚ
  onchainReputation : ℚ
  securityAudit : ℚ
  accountAge : ℚ
  verificationTier : VerificationTier
  attestedAt : ℚ
  attestedBy : String
  version : ℚ
  lastActivityAt : ℚ
  decayRate : ℚ
deriving DecidableEq

/-- Result record of `getCurrentScore`. -/
structure CurrentScoreResult where
  currentScore : ℚ
  decayApplied : ℚ
deriving DecidableEq

/-- `DECAY_RATE_MONTHLY = 0.05` (5% per month on activity components). -/
def DECAY_RATE_MONTHLY : ℚ := 5 / 100

/-- Milliseconds in one 30-day month: `30 * 24 * 60 * 60 * 1000`. -/
def msPerMonth : ℚ := 30 * 24 * 60 * 60 * 1000

/-- `calcPlatformActivity` (trust-engine.ts, cap `WEIGHTS.platformActivity = 150`). -/
def calcPlatformActivity (data : AgentPlatformData) : ℚ :=
  let messageScore := min (data.denMessages / 100) 1 * 60
  let dmScore := min (data.dmsSent / 50) 1 * 40
  let promptScore := min (data.promptResponses / 10) 1 * 50
  min ((jsRound (messageScore + dmScore + promptScore) : ℚ)) 150

/-- `calcSkillVerifications` (trust-engine.ts, cap 150, zero-division guard). -/
def calcSkillVerifications (data : AgentPlatformData) : ℚ :=
  if data.totalSkills = 0 then 0
  else
    let ratio := data.verifiedSkills / max data.totalSkills 1
    let countBonus := min (data.verifiedSkills / 10) 1 * 50
    min ((jsRound (ratio * 100 + countBonus) : ℚ)) 150

/-- `calcEndorsements` (trust-engine.ts, cap 150). -/
def calcEndorsements (data : AgentPlatformData) : ℚ :=
  let countScore := min (data.endorsementsReceived / 20) 1 * 75
  let qualityScore := data.endorserAvgTrust / 1000 * 75
  min ((jsRound (countScore + qualityScore) : ℚ)) 150

/-- `calcReviews` (trust-engine.ts, cap 150). -/
def calcReviews (data : AgentPlatformData) : ℚ :=
  let countScore := min (data.reviewCount / 15) 1 * 75
  let qualityScore := data.avgReviewScore / 5 * 75
  min ((jsRound (countScore + qualityScore) : ℚ)) 150

/-- `calcDeploymentMetrics` (trust-engine.ts, cap 150). -/
def calcDeploymentMetrics (data : AgentPlatformData) : ℚ :=
  let uptimeScore := data.uptimePercent / 100 * 75
  let qualityScore := data.responseQuality / 100 * 75
  min ((jsRound (uptimeScore + qualityScore) : ℚ)) 150

/-- `calcOnchainReputation` (trust-engine.ts, cap 100). -/
def calcOnchainReputation (data : AgentPlatformData) : ℚ :=
  let ageScore := min (data.walletAge / 365) 1 * 50
  let txScore := min (data.txCount / 100) 1 * 50
  min ((jsRound (ageScore + txScore) : ℚ)) 100

/-- `calcSecurityAudit` (trust-engine.ts, cap 100, gated on the audit flag). -/
def calcSecurityAudit (data : AgentPlatformData) : ℚ :=
  if data.securityAuditPassed then min data.auditScore 100 else 0

/-- `calcAccountAge` (trust-engine.ts, cap `WEIGHTS.accountAge = 50`). -/
def calcAccountAge (data : AgentPlatformData) : ℚ :=
  min ((jsRound (min (data.accountAgeDays / 180) 1 * 50) : ℚ)) 50

/-- The decay factor `Math.pow(1 - DECAY_RATE_MONTHLY, monthsInactive)`,
a real power since `monthsInactive` is fractional. -/
noncomputable def decayFactor (monthsInactive : ℚ) : ℝ :=
  (1 - (DECAY_RATE_MONTHLY : ℝ)) ^ (monthsInactive : ℝ)

/-- `applyDecay` (trust-engine.ts): no change for non-positive elapsed time,
otherwise round the score times the decay factor. -/
noncomputable def applyDecay (score : ℚ) (lastActivityAt now : ℚ) : ℚ :=
  let monthsInactive := (now - lastActivityAt) / msPerMonth
  if monthsInactive ≤ 0 then score
  else ((jsRoundR ((score : ℝ) * decayFactor monthsInactive) : ℤ) : ℚ)

/-- `calculateTrustScore` (trust-engine.ts): the eight component scores, decay
on the four activity components, and the summed `trustScore`. The reference
time `now` (`Date.now()` in the source) is an explicit parameter. -/
noncomputable def calculateTrustScore (data : AgentPlatformData) (now : ℚ) :
    TrustAttestation :=
  let platformActivity := applyDecay (calcPlatformActivity data) data.lastActivityAt now
  let skillVerifications := calcSkillVerifications data
  let endorsements := applyDecay (calcEndorsements data) data.lastActivityAt now
  let reviews := applyDecay (calcReviews data) data.lastActivityAt now
  let deploymentMetrics := applyDecay (calcDeploymentMetrics data) data.lastActivityAt now
  let onchainReputation := calcOnchainReputation data
  let securityAudit := calcSecurityAudit data
  let accountAge := calcAccountAge data
  { agentId := data.agentId
    agentName := data.agentName
    solanaWallet := data.solanaWallet
    trustScore := platformActivity + skillVerifications + endorsements + reviews +
      deploymentMetrics + onchainReputation + securityAudit + accountAge
    platformActivity := platformActivity
    skillVerifications := skillVerifications
    endorsements := endorsements
    reviews := reviews
    deploymentMetrics := deploymentMetrics
    onchainReputation := onchainReputation
    securityAudit := securityAudit
    accountAge := accountAge
    verificationTier := data.verificationTier
    attestedAt := now
    attestedBy := "moltbotden-oracle"
    version := 1
    lastActivityAt := data.lastActivityAt
    decayRate := DECAY_RATE_MONTHLY * 100 }

/-- `getCurrentScore` (trust-engine.ts): query-time re-derivation of the
decayed score from the stored attestation, with reference time `now`. -/
noncomputable def getCurrentScore (attestation : TrustAttestation) (now : ℚ) :
    CurrentScoreResult :=
  let monthsInactive := (now - attestation.lastActivityAt) / msPerMonth
  if monthsInactive ≤ 0 then
    { currentScore := attestation.trustScore, decayApplied := 0 }
  else
    let activityComponents := attestation.platformActivity + attestation.endorsements +
      attestation.reviews + attestation.deploymentMetrics
    let stableComponents := attestation.trustScore - activityComponents
    let decayedActivity :=
      ((jsRoundR ((activityComponents : ℝ) * decayFactor monthsInactive) : ℤ) : ℚ)
    { currentScore := stableComponents + decayedActivity
      decayApplied := attestation.trustScore - (stableComponents + decayedActivity) }

/-! ### Rounding lemmas -/

theorem jsRound_nonneg {x : ℚ} (h : 0 ≤ x) : 0 ≤ jsRound x := by
  unfold jsRound
  exact Int.floor_nonneg.mpr (by linarith)

theorem jsRound_intCast (n : ℤ) : jsRound ((n : ℤ) : ℚ) = n := by
  unfold jsRound
  rw [Int.floor_int_add]
  norm_num

theorem jsRoundR_mono {x y : ℝ} (h : x ≤ y) : jsRoundR x ≤ jsRoundR y := by
  unfold jsRoundR
  exact Int.floor_le_floor (by linarith)

theorem jsRoundR_intCast (n : ℤ) : jsRoundR ((n : ℤ) : ℝ) = n := by
  unfold jsRoundR
  rw [Int.floor_int_add]
  norm_num

theorem jsRoundR_nonneg {x : ℝ} (h : 0 ≤ x) : 0 ≤ jsRoundR x := by
  unfold jsRoundR
  exact Int.floor_nonneg.mpr (by linarith)

theorem jsRoundR_le_intCast {x : ℝ} {n : ℤ} (h : x ≤ (n : ℝ)) : jsRoundR x ≤ n := by
  have := jsRoundR_mono h
  simpa [jsRoundR_intCast] using this

theorem jsRoundR_eq {x : ℝ} {n : ℤ} (h₁ : (n : ℝ) ≤ x + 1 / 2)
    (h₂ : x + 1 / 2 < (n : ℝ) + 1) : jsRoundR x = n := by
  unfold jsRoundR
  exact Int.floor_eq_iff.mpr ⟨h₁, h₂⟩

/-! ### Decay factor lemmas -/

theorem decayFactor_base : (1 - (DECAY_RATE_MONTHLY : ℝ)) = (0.95 : ℝ) := by
  norm_num [DECAY_RATE_MONTHLY]

theorem decayFactor_pos (m : ℚ) : 0 < decayFactor m := by
  unfold decayFactor
  exact Real.rpow_pos_of_pos (by rw [decayFactor_base]; norm_num) _

theorem decayFactor_le_one {m : ℚ} (h : 0 ≤ m) : decayFactor m ≤ 1 := by
  unfold decayFactor
  refine Real.rpow_le_one ?_ ?_ ?_
  · rw [decayFactor_base]; norm_num
  · rw [decayFactor_base]; norm_num
  · exact_mod_cast h

theorem decayFactor_anti {m₁ m₂ : ℚ} (h : m₁ ≤ m₂) : decayFactor m₂ ≤ decayFactor m₁ := by
  unfold decayFactor
  refine Real.rpow_le_rpow_of_exponent_ge ?_ ?_ ?_
  · rw [decayFactor_base]; norm_num
  · rw [decayFactor_base]; norm_num
  · exact_mod_cast h

theorem decayFactor_natCast (n : ℕ) : decayFactor ((n : ℕ) : ℚ) = (0.95 : ℝ) ^ (n : ℕ) := by
  unfold decayFactor
  rw [decayFactor_base]
  rw [show (((n : ℕ) : ℚ) : ℝ) = ((n : ℕ) : ℝ) by push_cast; ring]
  exact Real.rpow_natCast _ _

/-! ### Decay preservation lemmas -/

theorem applyDecay_nonneg {s : ℚ} (hs : 0 ≤ s) (l n : ℚ) : 0 ≤ applyDecay s l n := by
  unfold applyDecay
  by_cases h : (n - l) / msPerMonth ≤ 0
  · simpa [h] using hs
  · simp only [h, if_false]
    have hf : (0 : ℝ) ≤ (s : ℝ) * decayFactor ((n - l) / msPerMonth) :=
      mul_nonneg (by exact_mod_cast hs) (le_of_lt (decayFactor_pos _))
    exact_mod_cast jsRoundR_nonneg hf

theorem applyDecay_le_intCast {s : ℚ} {k : ℤ} (hk : s ≤ (k : ℚ)) (hk0 : 0 ≤ k)
    (l n : ℚ) : applyDecay s l n ≤ (k : ℚ) := by
  unfold applyDecay
  by_cases h : (n - l) / msPerMonth ≤ 0
  · simpa [h] using hk
  · simp only [h, if_false]
    push_neg at h
    have hm : (0 : ℚ) ≤ (n - l) / msPerMonth := le_of_lt h
    have hr : jsRoundR ((s : ℝ) * decayFactor ((n - l) / msPerMonth)) ≤ k := by
      apply jsRoundR_le_intCast
      by_cases hs : 0 ≤ s
      · have h1 : (s : ℝ) * decayFactor ((n - l) / msPerMonth) ≤ (s : ℝ) * 1 :=
          mul_le_mul_of_nonneg_left (decayFactor_le_one hm) (by exact_mod_cast hs)
        have h2 : (s : ℝ) ≤ (k : ℝ) := by exact_mod_cast hk
        linarith
      · push_neg at hs
        have h1 : (s : ℝ) * decayFactor ((n - l) / msPerMonth) ≤ 0 :=
          mul_nonpos_of_nonpos_of_nonneg (by exact_mod_cast le_of_lt hs)
            (le_of_lt (decayFactor_pos _))
        have h2 : (0 : ℝ) ≤ (k : ℝ) := by exact_mod_cast hk0
        linarith
    exact_mod_cast hr

/-! ### Component score bounds -/

theorem min_ratio_term_nonneg {x c w : ℚ} (hx : 0 ≤ x) (hc : 0 < c) (hw : 0 ≤ w) :
    0 ≤ min (x / c) 1 * w :=
  mul_nonneg (le_min (div_nonneg hx hc.le) one_pos.le) hw

theorem calcPlatformActivity_nonneg {d : AgentPlatformData} (h1 : 0 ≤ d.denMessages)
    (h2 : 0 ≤ d.dmsSent) (h3 : 0 ≤ d.promptResponses) : 0 ≤ calcPlatformActivity d := by
  unfold calcPlatformActivity
  have t1 := min_ratio_term_nonneg h1 (by norm_num : (0:ℚ) < 100) (by norm_num : (0:ℚ) ≤ 60)
  have t2 := min_ratio_term_nonneg h2 (by norm_num : (0:ℚ) < 50) (by norm_num : (0:ℚ) ≤ 40)
  have t3 := min_ratio_term_nonneg h3 (by norm_num : (0:ℚ) < 10) (by norm_num : (0:ℚ) ≤ 50)
  refine le_min ?_ (by norm_num)
  exact_mod_cast jsRound_nonneg (by linarith)

theorem calcPlatformActivity_le (d : AgentPlatformData) : calcPlatformActivity d ≤ 150 :=
  min_le_right _ _

theorem calcSkillVerifications_nonneg {d : AgentPlatformData} (h1 : 0 ≤ d.verifiedSkills) :
    0 ≤ calcSkillVerifications d := by
  unfold calcSkillVerifications
  by_cases h : d.totalSkills = 0
  · simp [h]
  · simp only [h, if_false]
    have hmax : (0:ℚ) < max d.totalSkills 1 := lt_of_lt_of_le one_pos (le_max_right _ _)
    have t1 : 0 ≤ d.verifiedSkills / max d.totalSkills 1 * 100 :=
      mul_nonneg (div_nonneg h1 hmax.le) (by norm_num)
    have t2 := min_ratio_term_nonneg h1 (by norm_num : (0:ℚ) < 10) (by norm_num : (0:ℚ) ≤ 50)
    refine le_min ?_ (by norm_num)
    exact_mod_cast jsRound_nonneg (by linarith)

theorem calcSkillVerifications_le (d : AgentPlatformData) : calcSkillVerifications d ≤ 150 := by
  unfold calcSkillVerifications
  by_cases h : d.totalSkills = 0
  · simp [h]
  · simp only [h, if_false]
    exact min_le_right _ _

theorem calcEndorsements_nonneg {d : AgentPlatformData} (h1 : 0 ≤ d.endorsementsReceived)
    (h2 : 0 ≤ d.endorserAvgTrust) : 0 ≤ calcEndorsements d := by
  unfold calcEndorsements
  have t1 := min_ratio_term_nonneg h1 (by norm_num : (0:ℚ) < 20) (by norm_num : (0:ℚ) ≤ 75)
  have t2 : 0 ≤ d.endorserAvgTrust / 1000 * 75 :=
    mul_nonneg (div_nonneg h2 (by norm_num)) (by norm_num)
  refine le_min ?_ (by norm_num)
  exact_mod_cast jsRound_nonneg (by linarith)

theorem calcEndorsements_le (d : AgentPlatformData) : calcEndorsements d ≤ 150 :=
  min_le_right _ _

theorem calcReviews_nonneg {d : AgentPlatformData} (h1 : 0 ≤ d.reviewCount)
    (h2 : 0 ≤ d.avgReviewScore) : 0 ≤ calcReviews d := by
  unfold calcReviews
  have t1 := min_ratio_term_nonneg h1 (by norm_num : (0:ℚ) < 15) (by norm_num : (0:ℚ) ≤ 75)
  have t2 : 0 ≤ d.avgReviewScore / 5 * 75 :=
    mul_nonneg (div_nonneg h2 (by norm_num)) (by norm_num)
  refine le_min ?_ (by norm_num)
  exact_mod_cast jsRound_nonneg (by linarith)

theorem calcReviews_le (d : AgentPlatformData) : calcReviews d ≤ 150 :=
  min_le_right _ _

theorem calcDeploymentMetrics_nonneg {d : AgentPlatformData} (h1 : 0 ≤ d.uptimePercent)
    (h2 : 0 ≤ d.responseQuality) : 0 ≤ calcDeploymentMetrics d := by
  unfold calcDeploymentMetrics
  have t1 : 0 ≤ d.uptimePercent / 100 * 75 :=
    mul_nonneg (div_nonneg h1 (by norm_num)) (by norm_num)
  have t2 : 0 ≤ d.responseQuality / 100 * 75 :=
    mul_nonneg (div_nonneg h2 (by norm_num)) (by norm_num)
  refine le_min ?_ (by norm_num)
  exact_mod_cast jsRound_nonneg (by linarith)

theorem calcDeploymentMetrics_le (d : AgentPlatformData) : calcDeploymentMetrics d ≤ 150 :=
  min_le_right _ _

theorem calcOnchainReputation_nonneg {d : AgentPlatformData} (h1 : 0 ≤ d.walletAge)
    (h2 : 0 ≤ d.txCount) : 0 ≤ calcOnchainReputation d := by
  unfold calcOnchainReputation
  have t1 := min_ratio_term_nonneg h1 (by norm_num : (0:ℚ) < 365) (by norm_num : (0:ℚ) ≤ 50)
  have t2 := min_ratio_term_nonneg h2 (by norm_num : (0:ℚ) < 100) (by norm_num : (0:ℚ) ≤ 50)
  refine le_min ?_ (by norm_num)
  exact_mod_cast jsRound_nonneg (by linarith)

theorem calcOnchainReputation_le (d : AgentPlatformData) : calcOnchainReputation d ≤ 100 :=
  min_le_right _ _

theorem calcSecurityAudit_nonneg {d : AgentPlatformData} (h1 : 0 ≤ d.auditScore) :
    0 ≤ calcSecurityAudit d := by
  unfold calcSecurityAudit
  by_cases h : d.securityAuditPassed
  · simp only [h, if_true]
    exact le_min h1 (by norm_num)
  · simp [h]

theorem calcSecurityAudit_le (d : AgentPlatformData) : calcSecurityAudit d ≤ 100 := by
  unfold calcSecurityAudit
  by_cases h : d.securityAuditPassed
  · simp only [h, if_true]
    exact min_le_right _ _
  · simp [h]

theorem calcAccountAge_nonneg {d : AgentPlatformData} (h1 : 0 ≤ d.accountAgeDays) :
    0 ≤ calcAccountAge d := by
  unfold calcAccountAge
  have t1 := min_ratio_term_nonneg h1 (by norm_num : (0:ℚ) < 180) (by norm_num : (0:ℚ) ≤ 50)
  refine le_min ?_ (by norm_num)
  exact_mod_cast jsRound_nonneg (by linarith)

theorem calcAccountAge_le (d : AgentPlatformData) : calcAccountAge d ≤ 50 :=
  min_le_right _ _

/-! ### Field projections of `calculateTrustScore` -/

theorem calculateTrustScore_platformActivity (d : AgentPlatformData) (now : ℚ) :
    (calculateTrustScore d now).platformActivity =
      applyDecay (calcPlatformActivity d) d.lastActivityAt now := rfl

theorem calculateTrustScore_skillVerifications (d : AgentPlatformData) (now : ℚ) :
    (calculateTrustScore d now).skillVerifications = calcSkillVerifications d := rfl

theorem calculateTrustScore_endorsements (d : AgentPlatformData) (now : ℚ) :
    (calculateTrustScore d now).endorsements =
      applyDecay (calcEndorsements d) d.lastActivityAt now := rfl

theorem calculateTrustScore_reviews (d : AgentPlatformData) (now : ℚ) :
    (calculateTrustScore d now).reviews =
      applyDecay (calcReviews d) d.lastActivityAt now := rfl

theorem calculateTrustScore_deploymentMetrics (d : AgentPlatformData) (now : ℚ) :
    (calculateTrustScore d now).deploymentMetrics =
      applyDecay (calcDeploymentMetrics d) d.lastActivityAt now := rfl

theorem calculateTrustScore_onchainReputation (d : AgentPlatformData) (now : ℚ) :
    (calculateTrustScore d now).onchainReputation = calcOnchainReputation d := rfl

theorem calculateTrustScore_securityAudit (d : AgentPlatformData) (now : ℚ) :
    (calculateTrustScore d now).securityAudit = calcSecurityAudit d := rfl

theorem calculateTrustScore_accountAge (d : AgentPlatformData) (now : ℚ) :
    (calculateTrustScore d now).accountAge = calcAccountAge d := rfl

theorem calculateTrustScore_lastActivityAt (d : AgentPlatformData) (now : ℚ) :
    (calculateTrustScore d now).lastActivityAt = d.lastActivityAt := rfl

theorem calculateTrustScore_trustScore (d : AgentPlatformData) (now : ℚ) :
    (calculateTrustScore d now).trustScore =
      (calculateTrustScore d now).platformActivity +
      (calculateTrustScore d now).skillVerifications +
      (calculateTrustScore d now).endorsements +
      (calculateTrustScore d now).reviews +
      (calculateTrustScore d now).deploymentMetrics +
      (calculateTrustScore d now).onchainReputation +
      (calculateTrustScore d now).securityAudit +
      (calculateTrustScore d now).accountAge := rfl

theorem applyDecay_le_150 {s : ℚ} (hk : s ≤ 150) (l n : ℚ) : applyDecay s l n ≤ 150 := by
  have h1 : s ≤ ((150 : ℤ) : ℚ) := by exact_mod_cast hk
  have h2 := applyDecay_le_intCast h1 (by norm_num) l n
  exact_mod_cast h2

/-! ### Validity predicates (spec §3, §8) -/

/-- All numeric raw metrics non-negative and ratio-like fields within their
documented ranges (spec §3). -/
def ValidInput (d : AgentPlatformData) : Prop :=
  0 ≤ d.denMessages ∧ 0 ≤ d.dmsSent ∧ 0 ≤ d.promptResponses ∧
  0 ≤ d.verifiedSkills ∧ 0 ≤ d.totalSkills ∧ 0 ≤ d.endorsementsReceived ∧
  0 ≤ d.endorserAvgTrust ∧ d.endorserAvgTrust ≤ 1000 ∧
  0 ≤ d.reviewCount ∧ 0 ≤ d.avgReviewScore ∧ d.avgReviewScore ≤ 5 ∧
  0 ≤ d.uptimePercent ∧ d.uptimePercent ≤ 100 ∧
  0 ≤ d.responseQuality ∧ d.responseQuality ≤ 100 ∧
  0 ≤ d.walletAge ∧ 0 ≤ d.txCount ∧
  0 ≤ d.auditScore ∧ d.auditScore ≤ 100 ∧ 0 ≤ d.accountAgeDays

/-- Each of the eight sub-scores lies within its declared closed interval. -/
def SubScoresInRange (a : TrustAttestation) : Prop :=
  (0 ≤ a.platformActivity ∧ a.platformActivity ≤ 150) ∧
  (0 ≤ a.skillVerifications ∧ a.skillVerifications ≤ 150) ∧
  (0 ≤ a.endorsements ∧ a.endorsements ≤ 150) ∧
  (0 ≤ a.reviews ∧ a.reviews ≤ 150) ∧
  (0 ≤ a.deploymentMetrics ∧ a.deploymentMetrics ≤ 150) ∧
  (0 ≤ a.onchainReputation ∧ a.onchainReputation ≤ 100) ∧
  (0 ≤ a.securityAudit ∧ a.securityAudit ≤ 100) ∧
  (0 ≤ a.accountAge ∧ a.accountAge ≤ 50)

/-- `trustScore` equals the exact sum of the eight stored sub-scores. -/
def trustScoreIsSum (a : TrustAttestation) : Prop :=
  a.trustScore = a.platformActivity + a.skillVerifications + a.endorsements +
    a.reviews + a.deploymentMetrics + a.onchainReputation + a.securityAudit +
    a.accountAge

/-- Claim C1: for every input whose numeric fields are all non-negative and
whose ratio-like fields are within their documented ranges, each of the eight
sub-scores of the attestation returned by `calculateTrustScore` lies within
its declared closed interval, and `trustScore` lies in `[0, 1000]` and equals
the exact sum of the eight post-decay sub-scores. -/
theorem calculateTrustScore_bounds (d : AgentPlatformData) (now : ℚ)
    (h : ValidInput d) :
    SubScoresInRange (calculateTrustScore d now) ∧
    trustScoreIsSum (calculateTrustScore d now) ∧
    0 ≤ (calculateTrustScore d now).trustScore ∧
    (calculateTrustScore d now).trustScore ≤ 1000 := by
  obtain ⟨h1, h2, h3, h4, h5, h6, h7, h8, h9, h10, h11, h12, h13, h14, h15,
    h16, h17, h18, h19, h20⟩ := h
  have hPA0 : 0 ≤ (calculateTrustScore d now).platformActivity := by
    rw [calculateTrustScore_platformActivity]
    exact applyDecay_nonneg (calcPlatformActivity_nonneg h1 h2 h3) _ _
  have hPA1 : (calculateTrustScore d now).platformActivity ≤ 150 := by
    rw [calculateTrustScore_platformActivity]
    exact applyDecay_le_150 (calcPlatformActivity_le d) _ _
  have hSV0 : 0 ≤ (calculateTrustScore d now).skillVerifications := by
    rw [calculateTrustScore_skillVerifications]
    exact calcSkillVerifications_nonneg h4
  have hSV1 : (calculateTrustScore d now).skillVerifications ≤ 150 := by
    rw [calculateTrustScore_skillVerifications]
    exact calcSkillVerifications_le d
  have hEN0 : 0 ≤ (calculateTrustScore d now).endorsements := by
    rw [calculateTrustScore_endorsements]
    exact applyDecay_nonneg (calcEndorsements_nonneg h6 h7) _ _
  have hEN1 : (calculateTrustScore d now).endorsements ≤ 150 := by
    rw [calculateTrustScore_endorsements]
    exact applyDecay_le_150 (calcEndorsements_le d) _ _
  have hRV0 : 0 ≤ (calculateTrustScore d now).reviews := by
    rw [calculateTrustScore_reviews]
    exact applyDecay_nonneg (calcReviews_nonneg h9 h10) _ _
  have hRV1 : (calculateTrustScore d now).reviews ≤ 150 := by
    rw [calculateTrustScore_reviews]
    exact applyDecay_le_150 (calcReviews_le d) _ _
  have hDM0 : 0 ≤ (calculateTrustScore d now).deploymentMetrics := by
    rw [calculateTrustScore_deploymentMetrics]
    exact applyDecay_nonneg (calcDeploymentMetrics_nonneg h12 h14) _ _
  have hDM1 : (calculateTrustScore d now).deploymentMetrics ≤ 150 := by
    rw [calculateTrustScore_deploymentMetrics]
    exact applyDecay_le_150 (calcDeploymentMetrics_le d) _ _
  have hOR0 : 0 ≤ (calculateTrustScore d now).onchainReputation := by
    rw [calculateTrustScore_onchainReputation]
    exact calcOnchainReputation_nonneg h16 h17
  have hOR1 : (calculateTrustScore d now).onchainReputation ≤ 100 := by
    rw [calculateTrustScore_onchainReputation]
    exact calcOnchainReputation_le d
  have hSA0 : 0 ≤ (calculateTrustScore d now).securityAudit := by
    rw [calculateTrustScore_securityAudit]
    exact calcSecurityAudit_nonneg h18
  have hSA1 : (calculateTrustScore d now).securityAudit ≤ 100 := by
    rw [calculateTrustScore_securityAudit]
    exact calcSecurityAudit_le d
  have hAA0 : 0 ≤ (calculateTrustScore d now).accountAge := by
    rw [calculateTrustScore_accountAge]
    exact calcAccountAge_nonneg h20
  have hAA1 : (calculateTrustScore d now).accountAge ≤ 50 := by
    rw [calculateTrustScore_accountAge]
    exact calcAccountAge_le d
  have hsum : trustScoreIsSum (calculateTrustScore d now) :=
    calculateTrustScore_trustScore d now
  refine ⟨⟨⟨hPA0, hPA1⟩, ⟨hSV0, hSV1⟩, ⟨hEN0, hEN1⟩, ⟨hRV0, hRV1⟩, ⟨hDM0, hDM1⟩,
    ⟨hOR0, hOR1⟩, ⟨hSA0, hSA1⟩, ⟨hAA0, hAA1⟩⟩, hsum, ?_, ?_⟩
  · rw [hsum]
    linarith
  · rw [hsum]
    linarith

/-- All-zero example input used to witness the bounds theorem. -/
def zeroData : AgentPlatformData :=
  { agentId := "agent-0"
    agentName := "Zero"
    solanaWallet := "wallet-0"
    denMessages := 0
    dmsSent := 0
    promptResponses := 0
    verifiedSkills := 0
    totalSkills := 0
    endorsementsReceived := 0
    endorserAvgTrust := 0
    reviewCount := 0
    avgReviewScore := 0
    uptimePercent := 0
    responseQuality := 0
    walletAge := 0
    txCount := 0
    securityAuditPassed := false
    auditScore := 0
    accountAgeDays := 0
    verificationTier := VerificationTier.UNVERIFIED
    lastActivityAt := 0 }

/-- Witness for C1 at the all-zero input and reference time 0. -/
theorem calculateTrustScore_bounds_witness :
    ValidInput zeroData ∧
    (SubScoresInRange (calculateTrustScore zeroData 0) ∧
     trustScoreIsSum (calculateTrustScore zeroData 0) ∧
     0 ≤ (calculateTrustScore zeroData 0).trustScore ∧
     (calculateTrustScore zeroData 0).trustScore ≤ 1000) :=
  ⟨by unfold ValidInput; decide, calculateTrustScore_bounds zeroData 0
    (by unfold ValidInput; decide)⟩

/-! ### `getCurrentScore` case analysis -/

/-- Sum of the four stored activity-based sub-scores (spec §4.2). -/
def activitySubtotal (a : TrustAttestation) : ℚ :=
  a.platformActivity + a.endorsements + a.reviews + a.deploymentMetrics

theorem getCurrentScore_of_nonpos {a : TrustAttestation} {now : ℚ}
    (h : (now - a.lastActivityAt) / msPerMonth ≤ 0) :
    getCurrentScore a now = { currentScore := a.trustScore, decayApplied := 0 } := by
  simp [getCurrentScore, h]

theorem getCurrentScore_of_pos {a : TrustAttestation} {now : ℚ}
    (h : 0 < (now - a.lastActivityAt) / msPerMonth) :
    getCurrentScore a now =
      { currentScore := a.trustScore - activitySubtotal a +
          ((jsRoundR ((activitySubtotal a : ℝ) *
            decayFactor ((now - a.lastActivityAt) / msPerMonth)) : ℤ) : ℚ)
        decayApplied := a.trustScore - (a.trustScore - activitySubtotal a +
          ((jsRoundR ((activitySubtotal a : ℝ) *
            decayFactor ((now - a.lastActivityAt) / msPerMonth)) : ℤ) : ℚ)) } := by
  simp [getCurrentScore, activitySubtotal, not_le.mpr h]

theorem applyDecay_self_of_nonpos {s l now : ℚ} (h : (now - l) / msPerMonth ≤ 0) :
    applyDecay s l now = s := by
  simp [applyDecay, h]

theorem applyDecay_zero (l now : ℚ) : applyDecay 0 l now = 0 := by
  unfold applyDecay
  by_cases h : (now - l) / msPerMonth ≤ 0
  · simp [h]
  · have h0 : ((0 : ℚ) : ℝ) * decayFactor ((now - l) / msPerMonth) = ((0 : ℤ) : ℝ) := by
      norm_num
    simp only [h, if_false, h0, jsRoundR_intCast]
    norm_num

/-- Claim C7: for every attestation and query time with non-positive elapsed
time since `lastActivityAt`, `getCurrentScore` returns the stored `trustScore`
unchanged and `decayApplied = 0`. -/
theorem getCurrentScore_nonpositive_elapsed (a : TrustAttestation) (now : ℚ)
    (h : (now - a.lastActivityAt) / msPerMonth ≤ 0) :
    getCurrentScore a now = { currentScore := a.trustScore, decayApplied := 0 } :=
  getCurrentScore_of_nonpos h

/-- Example well-formed attestation: activity subtotal 200 and total 500. -/
def attEx : TrustAttestation :=
  { agentId := "agent-1"
    agentName := "Example"
    solanaWallet := "wallet-1"
    trustScore := 500
    platformActivity := 150
    skillVerifications := 150
    endorsements := 50
    reviews := 0
    deploymentMetrics := 0
    onchainReputation := 100
    securityAudit := 0
    accountAge := 50
    verificationTier := VerificationTier.VERIFIED
    attestedAt := 0
    attestedBy := "moltbotden-oracle"
    version := 1
    lastActivityAt := 0
    decayRate := 5 }

/-- Witness for C7: query at the last-activity instant itself. -/
theorem getCurrentScore_nonpositive_elapsed_witness :
    ((0 : ℚ) - attEx.lastActivityAt) / msPerMonth ≤ 0 ∧
    getCurrentScore attEx 0 = { currentScore := 500, decayApplied := 0 } := by
  have h : ((0 : ℚ) - attEx.lastActivityAt) / msPerMonth ≤ 0 := by
    norm_num [attEx, msPerMonth]
  exact ⟨h, getCurrentScore_nonpositive_elapsed attEx 0 h⟩

theorem getCurrentScore_congr {a₁ a₂ : TrustAttestation} (now : ℚ)
    (hts : a₁.trustScore = a₂.trustScore)
    (hpa : a₁.platformActivity = a₂.platformActivity)
    (hen : a₁.endorsements = a₂.endorsements)
    (hrv : a₁.reviews = a₂.reviews)
    (hdm : a₁.deploymentMetrics = a₂.deploymentMetrics)
    (hla : a₁.lastActivityAt = a₂.lastActivityAt) :
    getCurrentScore a₁ now = getCurrentScore a₂ now := by
  unfold getCurrentScore
  rw [hts, hpa, hen, hrv, hdm, hla]

/-- Claim C10: `getCurrentScore` depends only on `trustScore`, the four stored
activity sub-scores, `lastActivityAt` and the reference time; all other
attestation fields are irrelevant to its result. -/
theorem getCurrentScore_depends_only (a₁ a₂ : TrustAttestation) (now : ℚ)
    (hts : a₁.trustScore = a₂.trustScore)
    (hpa : a₁.platformActivity = a₂.platformActivity)
    (hen : a₁.endorsements = a₂.endorsements)
    (hrv : a₁.reviews = a₂.reviews)
    (hdm : a₁.deploymentMetrics = a₂.deploymentMetrics)
    (hla : a₁.lastActivityAt = a₂.lastActivityAt) :
    getCurrentScore a₁ now = getCurrentScore a₂ now :=
  getCurrentScore_congr now hts hpa hen hrv hdm hla

/-- A second attestation agreeing with `attEx` exactly on the fields
`getCurrentScore` reads, and differing on every other field. -/
def attExVariant : TrustAttestation :=
  { agentId := "agent-2"
    agentName := "Variant"
    solanaWallet := "wallet-2"
    trustScore := 500
    platformActivity := 150
    skillVerifications := 9
    endorsements := 50
    reviews := 0
    deploymentMetrics := 0
    onchainReputation := 7
    securityAudit := 300
    accountAge := -4
    verificationTier := VerificationTier.ENTERPRISE
    attestedAt := 987654
    attestedBy := "someone-else"
    version := 3
    lastActivityAt := 0
    decayRate := 42 }

/-- Witness for C10 at two concrete attestations. -/
theorem getCurrentScore_depends_only_witness :
    attEx.trustScore = attExVariant.trustScore ∧
    getCurrentScore attEx 12345 = getCurrentScore attExVariant 12345 :=
  ⟨rfl, getCurrentScore_depends_only attEx attExVariant 12345 rfl rfl rfl rfl rfl rfl⟩

/-- Claim C6: for a fixed non-negative integer starting score, decay is
monotonically non-increasing in elapsed time (for positive elapsed times),
and a decayed score never exceeds the starting score. -/
theorem applyDecay_monotone (s : ℤ) (last now₁ now₂ now₃ : ℚ) (hs : 0 ≤ s)
    (h1 : 0 < (now₁ - last) / msPerMonth)
    (h12 : (now₁ - last) / msPerMonth < (now₂ - last) / msPerMonth) :
    applyDecay (s : ℚ) last now₂ ≤ applyDecay (s : ℚ) last now₁ ∧
    applyDecay (s : ℚ) last now₃ ≤ (s : ℚ) := by
  have hsR : (0 : ℝ) ≤ (((s : ℤ) : ℚ) : ℝ) := by exact_mod_cast hs
  constructor
  · have h2 : 0 < (now₂ - last) / msPerMonth := h1.trans h12
    unfold applyDecay
    simp only [not_le.mpr h1, not_le.mpr h2, if_false]
    have hf : decayFactor ((now₂ - last) / msPerMonth) ≤
        decayFactor ((now₁ - last) / msPerMonth) := decayFactor_anti h12.le
    have hmul : (((s : ℤ) : ℚ) : ℝ) * decayFactor ((now₂ - last) / msPerMonth) ≤
        (((s : ℤ) : ℚ) : ℝ) * decayFactor ((now₁ - last) / msPerMonth) :=
      mul_le_mul_of_nonneg_left hf hsR
    exact_mod_cast jsRoundR_mono hmul
  · have hcast : ((s : ℤ) : ℚ) ≤ ((s : ℤ) : ℚ) := le_refl _
    have := applyDecay_le_intCast hcast hs last now₃
    exact this

/-- Witness for C6 at score 100 and elapsed times of 1, 2 and 3 months. -/
theorem applyDecay_monotone_witness :
    0 < (msPerMonth - 0) / msPerMonth ∧
    (applyDecay ((100 : ℤ) : ℚ) 0 (2 * msPerMonth) ≤
       applyDecay ((100 : ℤ) : ℚ) 0 msPerMonth ∧
     applyDecay ((100 : ℤ) : ℚ) 0 (3 * msPerMonth) ≤ ((100 : ℤ) : ℚ)) :=
  ⟨by norm_num [msPerMonth],
   applyDecay_monotone 100 0 msPerMonth (2 * msPerMonth) (3 * msPerMonth)
     (by norm_num) (by norm_num [msPerMonth]) (by norm_num [msPerMonth])⟩

/-- Claim C2: for positive elapsed time, `getCurrentScore` returns
`(trustScore − activitySubtotal) + round(activitySubtotal · 0.95^elapsedMonths)`
with `elapsedMonths = (now − lastActivityAt) / (30·24·60·60·1000)`, and
`decayApplied = trustScore − currentScore`. -/
theorem getCurrentScore_formula (a : TrustAttestation) (now : ℚ)
    (h : 0 < (now - a.lastActivityAt) / (30 * 24 * 60 * 60 * 1000)) :
    (getCurrentScore a now).currentScore =
      a.trustScore - activitySubtotal a +
        ((jsRoundR ((activitySubtotal a : ℝ) *
          (0.95 : ℝ) ^ ((((now - a.lastActivityAt) / (30 * 24 * 60 * 60 * 1000) : ℚ)) : ℝ)) : ℤ) : ℚ) ∧
    (getCurrentScore a now).decayApplied =
      a.trustScore - (getCurrentScore a now).currentScore := by
  have h' : 0 < (now - a.lastActivityAt) / msPerMonth := h
  rw [getCurrentScore_of_pos h']
  constructor
  · rw [show (0.95 : ℝ) = 1 - (DECAY_RATE_MONTHLY : ℝ) by norm_num [DECAY_RATE_MONTHLY]]
    rfl
  · rfl

/-- Witness for C2 at the worked example of the spec: `trustScore = 500`, stored
activity subtotal 200, elapsed exactly 2 months, giving 481 and 19. -/
theorem getCurrentScore_formula_witness :
    0 < ((5184000000 : ℚ) - attEx.lastActivityAt) / (30 * 24 * 60 * 60 * 1000) ∧
    getCurrentScore attEx 5184000000 = { currentScore := 481, decayApplied := 19 } := by
  have h : 0 < ((5184000000 : ℚ) - attEx.lastActivityAt) / (30 * 24 * 60 * 60 * 1000) := by
    norm_num [attEx]
  obtain ⟨hc, hd⟩ := getCurrentScore_formula attEx 5184000000 h
  have hsub : activitySubtotal attEx = 200 := by norm_num [activitySubtotal, attEx]
  have hexp : (((5184000000 : ℚ) - attEx.lastActivityAt) / (30 * 24 * 60 * 60 * 1000) : ℚ) = 2 := by
    norm_num [attEx]
  rw [hsub, hexp] at hc
  have hpow : (0.95 : ℝ) ^ (((2 : ℚ)) : ℝ) = (0.9025 : ℝ) := by
    rw [show (((2 : ℚ)) : ℝ) = ((2 : ℕ) : ℝ) by norm_num, Real.rpow_natCast]
    norm_num
  rw [hpow] at hc
  rw [show ((200 : ℚ) : ℝ) * (0.9025 : ℝ) = (180.5 : ℝ) by norm_num] at hc
  rw [show jsRoundR (180.5 : ℝ) = 181 from jsRoundR_eq (by norm_num) (by norm_num)] at hc
  have hc' : (getCurrentScore attEx 5184000000).currentScore = 481 := by
    rw [hc]
    norm_num [attEx]
  have hd' : (getCurrentScore attEx 5184000000).decayApplied = 19 := by
    rw [hd, hc']
    norm_num [attEx]
  refine ⟨h, ?_⟩
  have heta : getCurrentScore attEx 5184000000 =
      { currentScore := (getCurrentScore attEx 5184000000).currentScore
        decayApplied := (getCurrentScore attEx 5184000000).decayApplied } := rfl
  rw [heta, hc', hd']

/-! ### Claim C3: agreement of the two decay strategies at issuance -/

theorem decayFactor_two : decayFactor 2 = (0.9025 : ℝ) := by
  unfold decayFactor
  rw [decayFactor_base, show (((2 : ℚ)) : ℝ) = ((2 : ℕ) : ℝ) by norm_num,
    Real.rpow_natCast]
  norm_num

theorem applyDecay_two_months (s : ℚ) :
    applyDecay s 0 5184000000 = ((jsRoundR ((s : ℝ) * (0.9025 : ℝ)) : ℤ) : ℚ) := by
  simp only [applyDecay]
  rw [show ((5184000000 : ℚ) - 0) / msPerMonth = 2 by norm_num [msPerMonth]]
  rw [if_neg (by norm_num : ¬ ((2 : ℚ) ≤ 0))]
  rw [decayFactor_two]

/-- Input whose platform activity is already decayed at issuance: den messages
only, last activity two months before the issuance instant. -/
def dataC3 : AgentPlatformData := { zeroData with denMessages := 1000 }

/-- The attestation `calculateTrustScore dataC3 5184000000` produces, written
out concretely on the fields `getCurrentScore` reads. -/
def attC3 : TrustAttestation :=
  { agentId := "agent-0"
    agentName := "Zero"
    solanaWallet := "wallet-0"
    trustScore := 54
    platformActivity := 54
    skillVerifications := 0
    endorsements := 0
    reviews := 0
    deploymentMetrics := 0
    onchainReputation := 0
    securityAudit := 0
    accountAge := 0
    verificationTier := VerificationTier.UNVERIFIED
    attestedAt := 5184000000
    attestedBy := "moltbotden-oracle"
    version := 1
    lastActivityAt := 0
    decayRate := 5 }

theorem calculateTrustScore_dataC3_platformActivity :
    (calculateTrustScore dataC3 5184000000).platformActivity = 54 := by
  rw [calculateTrustScore_platformActivity,
    show calcPlatformActivity dataC3 = 60 by norm_num [calcPlatformActivity, jsRound, dataC3, zeroData, min_def],
    show dataC3.lastActivityAt = 0 from rfl, applyDecay_two_months]
  rw [show ((60 : ℚ) : ℝ) * (0.9025 : ℝ) = (54.15 : ℝ) by norm_num]
  rw [show jsRoundR (54.15 : ℝ) = 54 from jsRoundR_eq (by norm_num) (by norm_num)]
  norm_num

theorem calculateTrustScore_dataC3_endorsements :
    (calculateTrustScore dataC3 5184000000).endorsements = 0 := by
  rw [calculateTrustScore_endorsements, show calcEndorsements dataC3 = 0 by norm_num [calcEndorsements, jsRound, dataC3, zeroData, min_def],
    show dataC3.lastActivityAt = 0 from rfl, applyDecay_zero]

theorem calculateTrustScore_dataC3_reviews :
    (calculateTrustScore dataC3 5184000000).reviews = 0 := by
  rw [calculateTrustScore_reviews, show calcReviews dataC3 = 0 by norm_num [calcReviews, jsRound, dataC3, zeroData, min_def],
    show dataC3.lastActivityAt = 0 from rfl, applyDecay_zero]

theorem calculateTrustScore_dataC3_deploymentMetrics :
    (calculateTrustScore dataC3 5184000000).deploymentMetrics = 0 := by
  rw [calculateTrustScore_deploymentMetrics,
    show calcDeploymentMetrics dataC3 = 0 by norm_num [calcDeploymentMetrics, jsRound, dataC3, zeroData, min_def],
    show dataC3.lastActivityAt = 0 from rfl, applyDecay_zero]

theorem calculateTrustScore_dataC3_trustScore :
    (calculateTrustScore dataC3 5184000000).trustScore = 54 := by
  rw [calculateTrustScore_trustScore, calculateTrustScore_dataC3_platformActivity,
    calculateTrustScore_dataC3_endorsements, calculateTrustScore_dataC3_reviews,
    calculateTrustScore_dataC3_deploymentMetrics,
    calculateTrustScore_skillVerifications, calculateTrustScore_onchainReputation,
    calculateTrustScore_securityAudit, calculateTrustScore_accountAge,
    show calcSkillVerifications dataC3 = 0 by norm_num [calcSkillVerifications, dataC3, zeroData],
    show calcOnchainReputation dataC3 = 0 by norm_num [calcOnchainReputation, jsRound, dataC3, zeroData, min_def],
    show calcSecurityAudit dataC3 = 0 by norm_num [calcSecurityAudit, dataC3, zeroData],
    show calcAccountAge dataC3 = 0 by norm_num [calcAccountAge, jsRound, dataC3, zeroData, min_def]]
  norm_num

theorem getCurrentScore_attC3 :
    getCurrentScore attC3 5184000000 = { currentScore := 49, decayApplied := 5 } := by
  rw [getCurrentScore_of_pos (by norm_num [attC3, msPerMonth])]
  rw [show activitySubtotal attC3 = 54 by norm_num [activitySubtotal, attC3]]
  rw [show ((5184000000 : ℚ) - attC3.lastActivityAt) / msPerMonth = 2 by
    norm_num [attC3, msPerMonth]]
  rw [decayFactor_two]
  rw [show ((54 : ℚ) : ℝ) * (0.9025 : ℝ) = (48.735 : ℝ) by norm_num]
  rw [show jsRoundR (48.735 : ℝ) = 49 from jsRoundR_eq (by norm_num) (by norm_num)]
  simp only [CurrentScoreResult.mk.injEq]
  norm_num [attC3]

/-- Counterexample to C3 as stated: at this input the stored activity
sub-scores are already decayed, and querying at the issuance instant applies
the decay factor a second time, so `currentScore` is 49 while the issued
`trustScore` is 54. -/
theorem issuance_agreement_counterexample :
    (getCurrentScore (calculateTrustScore dataC3 5184000000) 5184000000).currentScore ≠
      (calculateTrustScore dataC3 5184000000).trustScore := by
  have hcongr : getCurrentScore (calculateTrustScore dataC3 5184000000) 5184000000 =
      getCurrentScore attC3 5184000000 := by
    apply getCurrentScore_congr
    · rw [calculateTrustScore_dataC3_trustScore]
      rfl
    · rw [calculateTrustScore_dataC3_platformActivity]
      rfl
    · rw [calculateTrustScore_dataC3_endorsements]
      rfl
    · rw [calculateTrustScore_dataC3_reviews]
      rfl
    · rw [calculateTrustScore_dataC3_deploymentMetrics]
      rfl
    · rfl
  rw [hcongr, getCurrentScore_attC3, calculateTrustScore_dataC3_trustScore]
  norm_num

/-- Claim C3 (amended): the two decay strategies agree at the moment of
issuance whenever the elapsed time at issuance is non-positive, i.e. the last
activity is at or after the issuance instant; then `getCurrentScore` at the
issuance timestamp returns the issued `trustScore` and `decayApplied = 0`.
They need not agree for positive elapsed time at issuance, as the
counterexample above shows: there the query-time strategy re-applies the
decay factor to the already-decayed stored activity subtotal. -/
theorem issuance_query_agreement (d : AgentPlatformData) (now : ℚ)
    (h : now ≤ d.lastActivityAt) :
    getCurrentScore (calculateTrustScore d now) now =
      { currentScore := (calculateTrustScore d now).trustScore, decayApplied := 0 } := by
  apply getCurrentScore_of_nonpos
  rw [calculateTrustScore_lastActivityAt]
  apply div_nonpos_of_nonpos_of_nonneg
  · linarith
  · norm_num [msPerMonth]

/-- Witness for the amended C3 with last activity exactly at issuance. -/
theorem issuance_query_agreement_witness :
    (0 : ℚ) ≤ zeroData.lastActivityAt ∧
    getCurrentScore (calculateTrustScore zeroData 0) 0 =
      { currentScore := (calculateTrustScore zeroData 0).trustScore
        decayApplied := 0 } :=
  ⟨by norm_num [zeroData], issuance_query_agreement zeroData 0 (by norm_num [zeroData])⟩

/-! ### Claim C4: saturating caps under out-of-domain inputs -/

/-- Claim C4 (amended): for every input — including negative counts and
out-of-range ratios — `calculateTrustScore` is total and each sub-score never
exceeds its declared ceiling: the saturating caps bound every sub-score from
above regardless of out-of-domain raw inputs. (Negative raw inputs can,
however, push a sub-score below the lower end of its declared interval.) -/
theorem calculateTrustScore_upper_bounds (d : AgentPlatformData) (now : ℚ) :
    (calculateTrustScore d now).platformActivity ≤ 150 ∧
    (calculateTrustScore d now).skillVerifications ≤ 150 ∧
    (calculateTrustScore d now).endorsements ≤ 150 ∧
    (calculateTrustScore d now).reviews ≤ 150 ∧
    (calculateTrustScore d now).deploymentMetrics ≤ 150 ∧
    (calculateTrustScore d now).onchainReputation ≤ 100 ∧
    (calculateTrustScore d now).securityAudit ≤ 100 ∧
    (calculateTrustScore d now).accountAge ≤ 50 := by
  refine ⟨?_, ?_, ?_, ?_, ?_, ?_, ?_, ?_⟩
  · rw [calculateTrustScore_platformActivity]
    exact applyDecay_le_150 (calcPlatformActivity_le d) _ _
  · rw [calculateTrustScore_skillVerifications]
    exact calcSkillVerifications_le d
  · rw [calculateTrustScore_endorsements]
    exact applyDecay_le_150 (calcEndorsements_le d) _ _
  · rw [calculateTrustScore_reviews]
    exact applyDecay_le_150 (calcReviews_le d) _ _
  · rw [calculateTrustScore_deploymentMetrics]
    exact applyDecay_le_150 (calcDeploymentMetrics_le d) _ _
  · rw [calculateTrustScore_onchainReputation]
    exact calcOnchainReputation_le d
  · rw [calculateTrustScore_securityAudit]
    have h1 : calcSecurityAudit d ≤ ((100 : ℤ) : ℚ) := by
      exact_mod_cast calcSecurityAudit_le d
    exact_mod_cast h1
  · rw [calculateTrustScore_accountAge]
    exact calcAccountAge_le d

/-- Input with a negative message count (out of the documented domain). -/
def dataNeg : AgentPlatformData := { zeroData with denMessages := -200 }

/-- Counterexample to C4 as stated: at a negative message count the
`platformActivity` sub-score of the attestation is −120, outside its declared
closed interval `[0, 150]` — the caps only bound sub-scores from above. -/
theorem subscore_interval_counterexample :
    ¬ SubScoresInRange (calculateTrustScore dataNeg 0) := by
  intro h
  have h0 := h.1.1
  have hval : (calculateTrustScore dataNeg 0).platformActivity = -120 := by
    rw [calculateTrustScore_platformActivity,
      show calcPlatformActivity dataNeg = -120 by
        norm_num [calcPlatformActivity, jsRound, dataNeg, zeroData, min_def],
      show dataNeg.lastActivityAt = 0 from rfl,
      applyDecay_self_of_nonpos (by norm_num [msPerMonth])]
  rw [hval] at h0
  norm_num at h0

/-! ### Claim C5: range of `getCurrentScore` -/

/-- A rational that is an integer (the data model declares all sub-scores and
`trustScore` integer-valued). -/
def IsIntValued (q : ℚ) : Prop := ∃ n : ℤ, q = (n : ℚ)

theorem IsIntValued.add {x y : ℚ} (hx : IsIntValued x) (hy : IsIntValued y) :
    IsIntValued (x + y) := by
  obtain ⟨m, rfl⟩ := hx
  obtain ⟨n, rfl⟩ := hy
  exact ⟨m + n, by push_cast; ring⟩

theorem IsIntValued.sub {x y : ℚ} (hx : IsIntValued x) (hy : IsIntValued y) :
    IsIntValued (x - y) := by
  obtain ⟨m, rfl⟩ := hx
  obtain ⟨n, rfl⟩ := hy
  exact ⟨m - n, by push_cast; ring⟩

/-- The data-model invariants of §3: each sub-score within its declared
interval and integer-valued, and `trustScore` the exact sum of the eight. -/
def WellFormedAttestation (a : TrustAttestation) : Prop :=
  SubScoresInRange a ∧ trustScoreIsSum a ∧
  IsIntValued a.platformActivity ∧ IsIntValued a.skillVerifications ∧
  IsIntValued a.endorsements ∧ IsIntValued a.reviews ∧
  IsIntValued a.deploymentMetrics ∧ IsIntValued a.onchainReputation ∧
  IsIntValued a.securityAudit ∧ IsIntValued a.accountAge

/-- Attestation violating the data-model invariants: `trustScore = 2000`. -/
def attBad : TrustAttestation := { attEx with trustScore := 2000 }

/-- Counterexample to C5 as stated: on an arbitrary (ill-formed) attestation
with `trustScore = 2000` and non-positive elapsed time, `getCurrentScore`
returns `currentScore = 2000`, outside `0..1000`. -/
theorem currentScore_range_counterexample :
    ¬ ((getCurrentScore attBad 0).currentScore ≤ 1000) := by
  have hnp : ((0 : ℚ) - attBad.lastActivityAt) / msPerMonth ≤ 0 := by
    show ((0 : ℚ) - 0) / msPerMonth ≤ 0
    norm_num
  rw [getCurrentScore_of_nonpos hnp]
  show ¬ ((2000 : ℚ) ≤ 1000)
  norm_num

/-- Claim C5 (amended): for every attestation satisfying the data-model
invariants of §3 and every reference time, `getCurrentScore` returns an
integer `currentScore` in `[0, 1000]` and an integer `decayApplied ≥ 0`. -/
theorem getCurrentScore_range (a : TrustAttestation) (now : ℚ)
    (h : WellFormedAttestation a) :
    0 ≤ (getCurrentScore a now).currentScore ∧
    (getCurrentScore a now).currentScore ≤ 1000 ∧
    IsIntValued (getCurrentScore a now).currentScore ∧
    0 ≤ (getCurrentScore a now).decayApplied ∧
    IsIntValued (getCurrentScore a now).decayApplied := by
  obtain ⟨hr, hsum, hiPA, hiSV, hiEN, hiRV, hiDM, hiOR, hiSA, hiAA⟩ := h
  obtain ⟨⟨hPA0, hPA1⟩, ⟨hSV0, hSV1⟩, ⟨hEN0, hEN1⟩, ⟨hRV0, hRV1⟩, ⟨hDM0, hDM1⟩,
    ⟨hOR0, hOR1⟩, ⟨hSA0, hSA1⟩, ⟨hAA0, hAA1⟩⟩ := hr
  have hsum' : a.trustScore = a.platformActivity + a.skillVerifications +
      a.endorsements + a.reviews + a.deploymentMetrics + a.onchainReputation +
      a.securityAudit + a.accountAge := hsum
  have hiT : IsIntValued a.trustScore := by
    rw [hsum']
    exact ((((((hiPA.add hiSV).add hiEN).add hiRV).add hiDM).add hiOR).add hiSA).add hiAA
  by_cases hm : (now - a.lastActivityAt) / msPerMonth ≤ 0
  · rw [getCurrentScore_of_nonpos hm]
    refine ⟨?_, ?_, ?_, ?_, ?_⟩
    · show 0 ≤ a.trustScore
      rw [hsum']
      linarith
    · show a.trustScore ≤ 1000
      rw [hsum']
      linarith
    · exact hiT
    · show (0 : ℚ) ≤ 0
      exact le_refl 0
    · exact ⟨0, by norm_num⟩
  · push_neg at hm
    rw [getCurrentScore_of_pos hm]
    have hiA : IsIntValued (activitySubtotal a) := ((hiPA.add hiEN).add hiRV).add hiDM
    obtain ⟨kA, hkA⟩ := hiA
    have hA0 : (0 : ℚ) ≤ activitySubtotal a := by
      unfold activitySubtotal
      linarith
    have hA600 : activitySubtotal a ≤ 600 := by
      unfold activitySubtotal
      linarith
    have hASR0 : (0 : ℝ) ≤ (activitySubtotal a : ℝ) := by exact_mod_cast hA0
    have hf1 : decayFactor ((now - a.lastActivityAt) / msPerMonth) ≤ 1 :=
      decayFactor_le_one hm.le
    have hf0 : 0 < decayFactor ((now - a.lastActivityAt) / msPerMonth) :=
      decayFactor_pos _
    have hprod0 : (0 : ℝ) ≤ (activitySubtotal a : ℝ) *
        decayFactor ((now - a.lastActivityAt) / msPerMonth) :=
      mul_nonneg hASR0 hf0.le
    have hprodA : (activitySubtotal a : ℝ) *
        decayFactor ((now - a.lastActivityAt) / msPerMonth) ≤ ((kA : ℤ) : ℝ) := by
      have h1 : (activitySubtotal a : ℝ) *
          decayFactor ((now - a.lastActivityAt) / msPerMonth) ≤ (activitySubtotal a : ℝ) :=
        mul_le_of_le_one_right hASR0 hf1
      have h2 : (activitySubtotal a : ℝ) = ((kA : ℤ) : ℝ) := by
        rw [hkA]
        push_cast
        ring
      linarith
    have hround0 := jsRoundR_nonneg hprod0
    have hroundA := jsRoundR_le_intCast hprodA
    have hroundQ0 : (0 : ℚ) ≤ ((jsRoundR ((activitySubtotal a : ℝ) *
        decayFactor ((now - a.lastActivityAt) / msPerMonth)) : ℤ) : ℚ) := by
      exact_mod_cast hround0
    have hroundQA : ((jsRoundR ((activitySubtotal a : ℝ) *
        decayFactor ((now - a.lastActivityAt) / msPerMonth)) : ℤ) : ℚ) ≤
        activitySubtotal a := by
      have h3 : ((jsRoundR ((activitySubtotal a : ℝ) *
          decayFactor ((now - a.lastActivityAt) / msPerMonth)) : ℤ) : ℚ) ≤
          ((kA : ℤ) : ℚ) := by exact_mod_cast hroundA
      rw [← hkA] at h3
      exact h3
    have hstable0 : 0 ≤ a.trustScore - activitySubtotal a := by
      rw [hsum']
      unfold activitySubtotal
      linarith
    have hstable400 : a.trustScore - activitySubtotal a ≤ 400 := by
      rw [hsum']
      unfold activitySubtotal
      linarith
    refine ⟨?_, ?_, ?_, ?_, ?_⟩
    · show 0 ≤ a.trustScore - activitySubtotal a +
        ((jsRoundR ((activitySubtotal a : ℝ) *
          decayFactor ((now - a.lastActivityAt) / msPerMonth)) : ℤ) : ℚ)
      linarith
    · show a.trustScore - activitySubtotal a +
        ((jsRoundR ((activitySubtotal a : ℝ) *
          decayFactor ((now - a.lastActivityAt) / msPerMonth)) : ℤ) : ℚ) ≤ 1000
      linarith
    · show IsIntValued (a.trustScore - activitySubtotal a +
        ((jsRoundR ((activitySubtotal a : ℝ) *
          decayFactor ((now - a.lastActivityAt) / msPerMonth)) : ℤ) : ℚ))
      exact (hiT.sub ⟨kA, hkA⟩).add
        ⟨jsRoundR ((activitySubtotal a : ℝ) *
          decayFactor ((now - a.lastActivityAt) / msPerMonth)), rfl⟩
    · show 0 ≤ a.trustScore - (a.trustScore - activitySubtotal a +
        ((jsRoundR ((activitySubtotal a : ℝ) *
          decayFactor ((now - a.lastActivityAt) / msPerMonth)) : ℤ) : ℚ))
      linarith
    · show IsIntValued (a.trustScore - (a.trustScore - activitySubtotal a +
        ((jsRoundR ((activitySubtotal a : ℝ) *
          decayFactor ((now - a.lastActivityAt) / msPerMonth)) : ℤ) : ℚ)))
      exact hiT.sub ((hiT.sub ⟨kA, hkA⟩).add
        ⟨jsRoundR ((activitySubtotal a : ℝ) *
          decayFactor ((now - a.lastActivityAt) / msPerMonth)), rfl⟩)

/-- Witness for the amended C5 at a concrete well-formed attestation queried
two months after its last activity. -/
theorem getCurrentScore_range_witness :
    WellFormedAttestation attEx ∧
    (0 ≤ (getCurrentScore attEx 5184000000).currentScore ∧
     (getCurrentScore attEx 5184000000).currentScore ≤ 1000 ∧
     IsIntValued (getCurrentScore attEx 5184000000).currentScore ∧
     0 ≤ (getCurrentScore attEx 5184000000).decayApplied ∧
     IsIntValued (getCurrentScore attEx 5184000000).decayApplied) := by
  have h : WellFormedAttestation attEx := by
    refine ⟨?_, ?_, ⟨150, by norm_num [attEx]⟩, ⟨150, by norm_num [attEx]⟩,
      ⟨50, by norm_num [attEx]⟩, ⟨0, by norm_num [attEx]⟩, ⟨0, by norm_num [attEx]⟩,
      ⟨100, by norm_num [attEx]⟩, ⟨0, by norm_num [attEx]⟩, ⟨50, by norm_num [attEx]⟩⟩
    · unfold SubScoresInRange
      decide
    · unfold trustScoreIsSum
      norm_num [attEx]
  exact ⟨h, getCurrentScore_range attEx 5184000000 h⟩

/-! ### Claims C8 and C9: individual component formulas -/

/-- The skill-verification formula exactly as the spec states it (§4.1):
0 when `totalSkills = 0`, otherwise
`round(verified/max(totalSkills,1)·100 + min(verified/10,1)·50)` capped at 150. -/
def skillVerificationsSpec (verifiedSkills totalSkills : ℚ) : ℚ :=
  if totalSkills = 0 then 0
  else
    min ((jsRound (verifiedSkills / max totalSkills 1 * 100 +
      min (verifiedSkills / 10) 1 * 50) : ℚ)) 150

/-- Claim C8: `calcSkillVerifications` is 0 whenever `totalSkills = 0`
(for every `verifiedSkills`), and otherwise follows the spec formula. -/
theorem calcSkillVerifications_spec (d : AgentPlatformData) :
    (d.totalSkills = 0 → calcSkillVerifications d = 0) ∧
    calcSkillVerifications d =
      skillVerificationsSpec d.verifiedSkills d.totalSkills := by
  constructor
  · intro h
    simp [calcSkillVerifications, h]
  · rfl

/-- Input realising the worked example of the spec (`totalSkills = verifiedSkills = 6`). -/
def skillData : AgentPlatformData :=
  { zeroData with verifiedSkills := 6, totalSkills := 6 }

/-- Witness for C8: the zero-skill guard fires at the all-zero input, and the
worked example `totalSkills = 6, verifiedSkills = 6` yields 130. -/
theorem calcSkillVerifications_spec_witness :
    calcSkillVerifications zeroData = 0 ∧
    calcSkillVerifications skillData = 130 ∧
    calcSkillVerifications skillData =
      skillVerificationsSpec skillData.verifiedSkills skillData.totalSkills := by
  refine ⟨(calcSkillVerifications_spec zeroData).1 rfl, ?_,
    (calcSkillVerifications_spec skillData).2⟩
  norm_num [calcSkillVerifications, jsRound, skillData, zeroData, min_def, max_def]

/-- The security-audit formula exactly as the spec states it (§4.1):
0 when the audit flag is unset, else `min(auditScore, 100)`. -/
def securityAuditSpec (auditPassed : Bool) (auditScore : ℚ) : ℚ :=
  if auditPassed then min auditScore 100 else 0

/-- Claim C9: `calcSecurityAudit` is 0 whenever the audit-passed flag is
false, regardless of `auditScore`; when the flag is true it equals
`min(auditScore, 100)`. -/
theorem calcSecurityAudit_spec (d : AgentPlatformData) :
    (d.securityAuditPassed = false → calcSecurityAudit d = 0) ∧
    (d.securityAuditPassed = true → calcSecurityAudit d = min d.auditScore 100) ∧
    calcSecurityAudit d = securityAuditSpec d.securityAuditPassed d.auditScore := by
  refine ⟨?_, ?_, rfl⟩
  · intro h
    simp [calcSecurityAudit, h]
  · intro h
    simp [calcSecurityAudit, h]

/-- Input with the audit flag set and an out-of-range audit score. -/
def auditData : AgentPlatformData :=
  { zeroData with securityAuditPassed := true, auditScore := 250 }

/-- Witness for C9: the flag-off case yields 0 even with a huge `auditScore`,
and the flag-on case caps at 100. -/
theorem calcSecurityAudit_spec_witness :
    calcSecurityAudit { zeroData with auditScore := 9999 } = 0 ∧
    calcSecurityAudit auditData = 100 := by
  constructor
  · exact (calcSecurityAudit_spec { zeroData with auditScore := 9999 }).1 rfl
  · have h := (calcSecurityAudit_spec auditData).2.1 rfl
    rw [h]
    norm_num [auditData, min_def]
